import Mathlib

/-!
# Verification of `examples/proofs/generate.py`

A shallow embedding of the proof-generation driver script. The script's only
arithmetic is `compute_fri_step_list` (a ceiling-log2 / divmod formula); the
rest is JSON patching (`update_parameter_file`, `extract_steps`), command
construction (`build_cairo_run_command`) and a per-layout try/continue loop.

Conventions of the embedding:
* Python integers are `ℤ` (arbitrary precision, no overflow).
* `math.ceil(math.log(n, 2))` is modelled by its exact real-arithmetic value,
  the ceiling base-2 logarithm (`clog2`, certified below to equal
  `Nat.clog 2`). CPython evaluates `log(n, 2)` in IEEE double precision and
  the result departs from the exact value at some inputs — e.g.
  `ceil(log(2 ** 29, 2)) = 30` while the exact value is `29` — and the
  rounding of `log` is libm- and platform-dependent, so the float
  computation itself has no faithful embedding. Theorems that evaluate the
  logs do so only at arguments where float and exact agree (2, 4, 16, 64,
  100, 1024), except the two theorems at `2 ^ 29`, which compute the value
  the exact formula mandates at an input where the source's float path
  deviates from it.
* Python `divmod` is floor division: `Int.fdiv` / `Int.fmod`.
* JSON documents are the inductive `Json`; Python `dict` is an association
  list with unique keys, `dict.__setitem__` is `setKey`.
* Code that raises an exception (`ValueError` from `log` on a non-positive
  argument, `KeyError` / `TypeError` on a malformed document,
  `CalledProcessError` from a subprocess) is modelled as `none` /
  `Except.error`.
* The external executables and the file system are oracles: a `FileStore`
  maps paths to parsed documents, a `LayoutRun` records the exit statuses of
  the three subprocesses of one layout and the public-input document the
  runner writes.
-/

/-- Fuelled ceiling base-2 logarithm: `clog2Aux fuel n` computes the least `k`
with `n ≤ 2 ^ k` provided `n ≤ fuel`, by the recurrence
`clog2 n = clog2 (⌈n / 2⌉) + 1` for `n ≥ 2`. The explicit fuel keeps the
recursion structural so that concrete values reduce by `decide` / `rfl`. -/
def clog2Aux : ℕ → ℕ → ℕ
  | 0, _ => 0
  | fuel + 1, n => if n ≤ 1 then 0 else clog2Aux fuel ((n + 1) / 2) + 1

/-- Exact value of the script's `ceil(log(n, 2))` (source lines 49-52) in real
arithmetic: the ceiling base-2 logarithm. Equals `Nat.clog 2 n`, see
`clog2_eq_clog`. The source computes this in double precision, which
misrounds at some inputs (CPython: `ceil(log(2 ** 29, 2)) = 30`, not `29`);
this definition is the exact intended value, not the float computation. -/
def clog2 (n : ℕ) : ℕ := clog2Aux n n

/-- JSON documents as loaded by `json.load`. Objects are association lists
with unique keys (Python `dict` preserves insertion order; assignment to an
existing key keeps its position). All numbers occurring in this script are
integers, so `num` carries `ℤ`. -/
inductive Json where
  | null : Json
  | bool : Bool → Json
  | num : ℤ → Json
  | str : String → Json
  | arr : List Json → Json
  | obj : List (String × Json) → Json

/-- Python `d[k]` read on an association list: the value stored at the first
matching key. -/
def getKey : List (String × Json) → String → Option Json
  | [], _ => none
  | (k', v) :: fs, k => if k' = k then some v else getKey fs k

/-- Python `d[k] = v` on an association list: replace the value at an existing
key in place, or append a new binding. -/
def setKey : List (String × Json) → String → Json → List (String × Json)
  | [], k, v => [(k, v)]
  | (k', v') :: fs, k, v => if k' = k then (k, v) :: fs else (k', v') :: setKey fs k v

/-- Subscript access `j[k]`: defined on objects only (anything else raises
`TypeError` in Python, modelled as `none`). -/
def Json.get : Json → String → Option Json
  | .obj fs, k => getKey fs k
  | _, _ => none

/-- The read `config["stark"]["fri"]["last_layer_degree_bound"]` performed by
`compute_fri_step_list` (source lines 50-52). `none` models the `KeyError` /
`TypeError` raised when the path is missing or when the stored value is not a
number (so that `log` would raise). -/
def last_layer_degree_bound (config : Json) : Option ℤ :=
  match (config.get "stark").bind (fun stark => stark.get "fri") with
  | some fri =>
    match fri.get "last_layer_degree_bound" with
    | some (Json.num b) => some b
    | _ => none
  | none => none

/-- `compute_fri_step_list` (source lines 47-56):

    n_steps_log = ceil(log(n_steps, 2))
    last_layer_degree_bound_log = ceil(log(config["stark"]["fri"]["last_layer_degree_bound"], 2))
    sigma_fri_step_list = n_steps_log + 4 - last_layer_degree_bound_log
    q, r = divmod(sigma_fri_step_list, 4)
    return [0] + [4] * q + ([r] if r > 0 else [])

`none` models the exceptions: `ValueError` from `log` when `n_steps <= 0`
(raised first, line 49) or when the bound is non-positive, and `KeyError` /
`TypeError` when the config path is malformed. Python's `[4] * q` for a
negative `q` is the empty list, which `List.replicate q.toNat` reproduces.
The logs are the exact `clog2`, so this definition agrees with the source
exactly at arguments where the float `ceil(log(_, 2))` is exact, and gives
the formula's intended value where the float path misrounds (see `clog2`). -/
def compute_fri_step_list (n_steps : ℤ) (config : Json) : Option (List ℤ) :=
  if n_steps ≤ 0 then none
  else
    let n_steps_log : ℤ := clog2 n_steps.toNat
    match last_layer_degree_bound config with
    | none => none
    | some b =>
      if b ≤ 0 then none
      else
        let last_layer_degree_bound_log : ℤ := clog2 b.toNat
        let sigma_fri_step_list := n_steps_log + 4 - last_layer_degree_bound_log
        let q := Int.fdiv sigma_fri_step_list 4
        let r := Int.fmod sigma_fri_step_list 4
        some ([0] ++ List.replicate q.toNat 4 ++ (if 0 < r then [r] else []))

/-- A well-formed parameter configuration with the given
`last_layer_degree_bound` and `fri_step_list`, used for concrete test
documents. -/
def sampleConfig (b : ℤ) (steps : List ℤ) : Json :=
  Json.obj [("stark",
    Json.obj [("fri",
      Json.obj [("last_layer_degree_bound", Json.num b),
                ("fri_step_list", Json.arr (steps.map Json.num))])])]

/-- Decode a list of JSON values all of which are numbers. -/
def decodeNums : List Json → Option (List ℤ)
  | [] => some []
  | Json.num n :: rest => (decodeNums rest).map (fun l => n :: l)
  | _ => none

/-- Read back `config["stark"]["fri"]["fri_step_list"]` as a list of integers
(the shape `update_parameter_file` writes). -/
def fri_step_list_entries (config : Json) : Option (List ℤ) :=
  match (config.get "stark").bind (fun stark => stark.get "fri") with
  | some fri =>
    match fri.get "fri_step_list" with
    | some (Json.arr entries) => decodeNums entries
    | _ => none
  | none => none

/-- `extract_steps` (source lines 40-44): `public_input.get("n_steps", 0)` on
the parsed public-input document. The stored value is returned unchanged when
the field is present (Python does not coerce it), and the default `0` when it
is absent; `none` models the `AttributeError` raised when the parsed document
is not an object. -/
def extract_steps : Json → Option Json
  | Json.obj fields => some ((getKey fields "n_steps").getD (Json.num 0))
  | _ => none

/-- The fields of a document that must be a Python `dict` (anything else
raises `TypeError` on subscript assignment). -/
def asObj : Json → Option (List (String × Json))
  | Json.obj fields => some fields
  | _ => none

/-- The in-memory patch performed by `update_parameter_file` (source line 65):
`config["stark"]["fri"]["fri_step_list"] = compute_fri_step_list(n_steps, config)`.
The right-hand side is evaluated first; the assignment then re-traverses
`config["stark"]["fri"]` and assigns into that innermost dict. `none` models
the exception raised by either part on a malformed document or an
out-of-domain `n_steps`. -/
def updated_config (config : Json) (n_steps : ℤ) : Option Json :=
  (compute_fri_step_list n_steps config).bind (fun steps =>
    (asObj config).bind (fun top =>
      ((getKey top "stark").bind asObj).bind (fun starkFields =>
        ((getKey starkFields "fri").bind asObj).bind (fun friFields =>
          some (Json.obj (setKey top "stark" (Json.obj (setKey starkFields "fri"
            (Json.obj (setKey friFields "fri_step_list"
              (Json.arr (steps.map Json.num))))))))))))

/-- A file-system fragment: parsed JSON documents by path. -/
def FileStore := String → Option Json

/-- `os.path.join(a, b)` for a non-empty `a` and a relative second component:
insert a separator unless `a` already ends with one. -/
def os_path_join (a b : String) : String :=
  if a.data.getLast? = some '/' then a ++ b else a ++ "/" ++ b

/-- Source line 25: the baseline parameter file path. -/
def PARAMETER_FILE : String := "cpu_air_params.json"

/-- Source line 27: the program input file path. -/
def PROGRAM_INPUT_FILE : String := "fibonacci_input.json"

/-- `update_parameter_file` (source lines 59-73): load the baseline document
at `parameter_file_path`, patch its `fri_step_list`, write the patched
document to `os.path.join(tmpdir, "updated_cpu_air_params.json")` and return
that path. `none` models the exceptions (missing file, parse error, or any
error raised by the patch itself). -/
def update_parameter_file (fs : FileStore) (parameter_file_path tmpdir : String)
    (n_steps : ℤ) : Option (FileStore × String) :=
  (fs parameter_file_path).bind (fun config =>
    (updated_config config n_steps).map (fun config' =>
      let updated_file := os_path_join tmpdir "updated_cpu_air_params.json"
      (fun p => if p = updated_file then some config' else fs p, updated_file)))

/-- Source lines 14-21: the fixed list of layouts to process, in order. -/
def LAYOUTS : List String :=
  ["dex", "recursive", "recursive_with_poseidon", "small", "starknet",
   "starknet_with_keccak"]

/-- `build_cairo_run_command` (source lines 76-111), the same construction the
main path inlines at source lines 139-165: the fixed `cairo-run` argument list
plus, only for the `"dynamic"` layout, the extra
`--cairo_layout_params_file {layout}/cairo_layout_params.json` pair. -/
def build_cairo_run_command (layout compiled_output trace_file memory_file
    public_input_file private_input_file : String) : List String :=
  let base_command := ["cairo-run",
    "--program", compiled_output,
    "--layout", layout,
    "--proof_mode",
    "--program_input", PROGRAM_INPUT_FILE,
    "--trace_file", trace_file,
    "--memory_file", memory_file,
    "--air_private_input", private_input_file,
    "--air_public_input", public_input_file,
    "--print_info",
    "--print_output"]
  if layout = "dynamic" then
    base_command ++
      ["--cairo_layout_params_file", os_path_join layout "cairo_layout_params.json"]
  else
    base_command

/-- The exceptions a layout's processing can raise, all subclasses of
`Exception` and hence all caught by the main loop's `except Exception`. -/
inductive PipelineError where
  | calledProcessError (exitCode : ℕ)
  | documentError

/-- `run_command` (source lines 30-37): `subprocess.run(command, check=True)`
raises `CalledProcessError` on a nonzero exit status, which `run_command` logs
and re-raises. -/
def run_command (exitCode : ℕ) : Except PipelineError Unit :=
  if exitCode = 0 then Except.ok ()
  else Except.error (PipelineError.calledProcessError exitCode)

/-- Observable behaviour of the environment during one layout's processing:
the exit statuses of the three external executables, the public-input
document the runner writes, and the layout's temporary directory. -/
structure LayoutRun where
  tmpdir : String
  compileExit : ℕ
  runExit : ℕ
  publicInput : Json
  proveExit : ℕ

/-- `process_layout` (source lines 114-192): compile, run, extract `n_steps`
from the public input, patch the parameter file, prove. Each step's exception
propagates (the `Except` bind), skipping the remaining steps of this layout.
A non-numeric extracted `n_steps` makes `log` raise `TypeError`; a failing
patch raises out of `update_parameter_file`; both are `documentError`. -/
def process_layout (fs : FileStore) (r : LayoutRun) : Except PipelineError Unit := do
  run_command r.compileExit
  run_command r.runExit
  match extract_steps r.publicInput with
  | some (Json.num n_steps) =>
    match update_parameter_file fs PARAMETER_FILE r.tmpdir n_steps with
    | some _ => run_command r.proveExit
    | none => Except.error PipelineError.documentError
  | _ => Except.error PipelineError.documentError

/-- The main loop (source lines 196-201): process each layout inside
`try: ... except Exception: continue`, so a failure is logged and the next
layout is still processed. The result records, in order, each layout
attempted and the exception (if any) its processing raised. -/
def runAll (fs : FileStore) (runs : String → LayoutRun) :
    List String → List (String × Option PipelineError)
  | [] => []
  | layout :: rest =>
    match process_layout fs (runs layout) with
    | Except.ok _ => (layout, none) :: runAll fs runs rest
    | Except.error e => (layout, some e) :: runAll fs runs rest

/-- Concrete baseline file store for witnesses: the baseline parameter file
with `last_layer_degree_bound = 4` and nothing else. -/
def witnessStore : FileStore :=
  fun p => if p = "cpu_air_params.json" then some (sampleConfig 4 [7]) else none

/-- The file store after one run of the patcher on `witnessStore` with
`n_steps = 1024` and `tmpdir = "tmp"`. -/
def witnessStore1 : FileStore :=
  fun p => if p = "tmp/updated_cpu_air_params.json"
    then some (sampleConfig 4 [0, 4, 4, 4]) else witnessStore p

/-- The `stark.fri` fields of a concrete witness baseline with
`last_layer_degree_bound = 4`. -/
def friFields4 : List (String × Json) :=
  [("last_layer_degree_bound", Json.num 4), ("fri_step_list", Json.arr [Json.num 7])]

/-- The `stark` fields of the witness baseline. -/
def starkFields4 : List (String × Json) := [("fri", Json.obj friFields4)]

/-- The top-level fields of the witness baseline. -/
def topFields4 : List (String × Json) := [("stark", Json.obj starkFields4)]

theorem clog2Aux_eq_clog (fuel : ℕ) : ∀ n : ℕ, n ≤ fuel → clog2Aux fuel n = Nat.clog 2 n := by
  induction fuel with
  | zero =>
    intro n hn
    interval_cases n
    simp [clog2Aux]
  | succ fuel ih =>
    intro n hn
    by_cases h1 : n ≤ 1
    · have : Nat.clog 2 n = 0 := Nat.clog_of_right_le_one h1 2
      simp [clog2Aux, h1, this]
    · push_neg at h1
      have h2 : 2 ≤ n := h1
      have hrec : Nat.clog 2 n = Nat.clog 2 ((n + 2 - 1) / 2) + 1 :=
        Nat.clog_of_two_le (by norm_num) h2
      have harg : (n + 1) / 2 ≤ fuel := by
        have hlt : (n + 1) / 2 ≤ n - 1 := by omega
        omega
      have : clog2Aux (fuel + 1) n = clog2Aux fuel ((n + 1) / 2) + 1 := by
        simp [clog2Aux, h1]
      rw [this, ih _ harg, hrec]
      norm_num

/-- `clog2` is the ceiling base-2 logarithm of Mathlib. -/
theorem clog2_eq_clog (n : ℕ) : clog2 n = Nat.clog 2 n :=
  clog2Aux_eq_clog n n le_rfl

/-- Closed form of `compute_fri_step_list` on a well-formed input: the guards
pass and the returned list is the source's `[0] + [4] * q + ([r] if r > 0 else [])`
with `q, r = divmod(sigma, 4)` in floor-division convention. -/
theorem compute_fri_step_list_eq (n_steps b : ℤ) (config : Json) (hn : 0 < n_steps)
    (hb : last_layer_degree_bound config = some b) (hb0 : 0 < b) :
    compute_fri_step_list n_steps config =
      some ([0] ++
        List.replicate
          ((Int.fdiv ((clog2 n_steps.toNat : ℤ) + 4 - (clog2 b.toNat : ℤ)) 4).toNat) 4 ++
        (if 0 < Int.fmod ((clog2 n_steps.toNat : ℤ) + 4 - (clog2 b.toNat : ℤ)) 4
         then [Int.fmod ((clog2 n_steps.toNat : ℤ) + 4 - (clog2 b.toNat : ℤ)) 4]
         else [])) := by
  simp only [compute_fri_step_list, if_neg (by omega : ¬ n_steps ≤ 0), hb,
    if_neg (by omega : ¬ b ≤ 0)]

/-- C1, evaluated at the input where the source deviates from the claim's
formula: at `n_steps = 2 ^ 29` with bound `4`, the exact logs give
`steps_log = 29`, `total = 31`, `(q, r) = divmod(31, 4) = (7, 3)`, so the
claim mandates `[0] + [4] * 7 + [3]` — this theorem computes that value from
the exact-log model. The source instead evaluates
`ceil(log(2 ** 29, 2))` in double precision, where CPython's `log` returns
`29.000000000000004`, so it uses `steps_log = 30` and returns `[0] + [4] * 8`:
the claim's formula is the intent and the float logarithm a slip. -/
theorem compute_fri_step_list_exact_at_pow29 :
    compute_fri_step_list (2 ^ 29) (sampleConfig 4 []) =
      some ([0] ++ List.replicate 7 4 ++ [3]) := by
  decide

/-- C3: the three concrete cases: `n_steps = 1024` with bound `4` gives
`[0, 4, 4, 4]`; `n_steps = 100` with bound `2` gives `[0, 4, 4, 2]`;
`n_steps = 16` with bound `64` gives `[0, 2]`. -/
theorem compute_fri_step_list_concrete_cases :
    (∀ config : Json, last_layer_degree_bound config = some 4 →
      compute_fri_step_list 1024 config = some [0, 4, 4, 4]) ∧
    (∀ config : Json, last_layer_degree_bound config = some 2 →
      compute_fri_step_list 100 config = some [0, 4, 4, 2]) ∧
    (∀ config : Json, last_layer_degree_bound config = some 64 →
      compute_fri_step_list 16 config = some [0, 2]) := by
  refine ⟨fun config hb => ?_, fun config hb => ?_, fun config hb => ?_⟩
  · rw [compute_fri_step_list_eq 1024 4 config (by norm_num) hb (by norm_num)]; decide
  · rw [compute_fri_step_list_eq 100 2 config (by norm_num) hb (by norm_num)]; decide
  · rw [compute_fri_step_list_eq 16 64 config (by norm_num) hb (by norm_num)]; decide

theorem compute_fri_step_list_concrete_cases_witness :
    compute_fri_step_list 1024 (sampleConfig 4 []) = some [0, 4, 4, 4] ∧
    compute_fri_step_list 100 (sampleConfig 2 []) = some [0, 4, 4, 2] ∧
    compute_fri_step_list 16 (sampleConfig 64 []) = some [0, 2] :=
  ⟨compute_fri_step_list_concrete_cases.1 (sampleConfig 4 []) rfl,
   compute_fri_step_list_concrete_cases.2.1 (sampleConfig 2 []) rfl,
   compute_fri_step_list_concrete_cases.2.2 (sampleConfig 64 []) rfl⟩

/-- C4: for every `n_steps ≤ 0` and any configuration with a positive
`last_layer_degree_bound`, `compute_fri_step_list` raises (`ValueError`, from
`log` on a non-positive argument, modelled `none`) instead of returning a
list. -/
theorem compute_fri_step_list_nonpos_steps_error (n_steps b : ℤ) (config : Json)
    (hn : n_steps ≤ 0) (hb : last_layer_degree_bound config = some b) (hb0 : 0 < b) :
    compute_fri_step_list n_steps config = none := by
  simp [compute_fri_step_list, hn]

theorem compute_fri_step_list_nonpos_steps_error_witness :
    compute_fri_step_list 0 (sampleConfig 4 []) = none :=
  compute_fri_step_list_nonpos_steps_error 0 4 (sampleConfig 4 []) (by decide) rfl
    (by decide)

/-- C2, evaluated at the input where the source deviates from the claim: at
`n_steps = 2 ^ 29` with bound `4` the claim's exact total is
`ceil(log2 (2 ^ 29)) + 4 - ceil(log2 4) = 31`, and the exact-log model's
list has a tail summing to exactly that. The source's float computation uses
`steps_log = 30` (CPython's `log(2 ** 29, 2)` rounds up), so its tail sums
to `32`, violating the claim's sum property there: the claim states the
intent, the float logarithm is the slip. -/
theorem compute_fri_step_list_sum_at_pow29 :
    compute_fri_step_list (2 ^ 29) (sampleConfig 4 []) =
      some [0, 4, 4, 4, 4, 4, 4, 4, 3] ∧
    ([0, 4, 4, 4, 4, 4, 4, 4, 3] : List ℤ).tail.sum = 31 := by
  constructor
  · decide
  · decide

/-- C8: `extract_steps` returns the value stored under the `n_steps` key of
the public-input document, and the default `0` when that key is absent — a
default that in turn makes the step-list derivation fail
(`compute_fri_step_list 0 _ = none`, the `ValueError` from `log(0, 2)`). -/
theorem extract_steps_n_steps_field (fields : List (String × Json)) (n : ℤ)
    (config : Json) :
    (getKey fields "n_steps" = some (Json.num n) →
      extract_steps (Json.obj fields) = some (Json.num n)) ∧
    (getKey fields "n_steps" = none →
      extract_steps (Json.obj fields) = some (Json.num 0) ∧
      compute_fri_step_list 0 config = none) := by
  constructor
  · intro h
    simp [extract_steps, h]
  · intro h
    exact ⟨by simp [extract_steps, h], rfl⟩

theorem extract_steps_n_steps_field_witness :
    extract_steps (Json.obj [("n_steps", Json.num 1024)]) = some (Json.num 1024) ∧
    (extract_steps (Json.obj []) = some (Json.num 0) ∧
      compute_fri_step_list 0 Json.null = none) :=
  ⟨(extract_steps_n_steps_field [("n_steps", Json.num 1024)] 1024 Json.null).1 rfl,
   (extract_steps_n_steps_field [] 1024 Json.null).2 rfl⟩

/-- Whatever each layout's outcome, the loop's trace visits exactly the given
layouts in order: the per-layout `except` catches the failure and the
recursion continues with the rest. -/
theorem runAll_fst (fs : FileStore) (runs : String → LayoutRun) :
    ∀ layouts : List String, (runAll fs runs layouts).map Prod.fst = layouts := by
  intro layouts
  induction layouts with
  | nil => rfl
  | cons layout rest ih =>
    cases h : process_layout fs (runs layout) <;> simp [runAll, h, ih]

/-- C7: the main loop processes the layouts in the fixed order `dex`,
`recursive`, `recursive_with_poseidon`, `small`, `starknet`,
`starknet_with_keccak`, and any exception raised while processing one layout
(a nonzero exit status of an external command included) is caught at the
top-level loop: for every environment — so in particular whenever some
layout's processing fails — every layout of the list still appears, in
order, in the loop's trace. -/
theorem main_loop_processes_all_layouts (fs : FileStore) (runs : String → LayoutRun) :
    LAYOUTS = ["dex", "recursive", "recursive_with_poseidon", "small", "starknet",
      "starknet_with_keccak"] ∧
    (runAll fs runs LAYOUTS).map Prod.fst = LAYOUTS :=
  ⟨rfl, runAll_fst fs runs LAYOUTS⟩

/-- C9: the constructed runner command contains the
`--cairo_layout_params_file` flag iff the layout equals `"dynamic"` — in
which case the flag, followed by its value
`{layout}/cairo_layout_params.json`, is appended — and for every layout of
the default list the flag is absent. The path arguments are assumed distinct
from the flag string (in the script they are files inside the temporary
directory). -/
theorem build_cairo_run_command_dynamic_flag (layout compiled_output trace_file
    memory_file public_input_file private_input_file : String)
    (h0 : layout ≠ "--cairo_layout_params_file")
    (h1 : compiled_output ≠ "--cairo_layout_params_file")
    (h2 : trace_file ≠ "--cairo_layout_params_file")
    (h3 : memory_file ≠ "--cairo_layout_params_file")
    (h4 : public_input_file ≠ "--cairo_layout_params_file")
    (h5 : private_input_file ≠ "--cairo_layout_params_file") :
    ("--cairo_layout_params_file" ∈ build_cairo_run_command layout compiled_output
        trace_file memory_file public_input_file private_input_file ↔
      layout = "dynamic") ∧
    (layout = "dynamic" →
      ["--cairo_layout_params_file", "dynamic/cairo_layout_params.json"] <:+
        build_cairo_run_command layout compiled_output trace_file memory_file
          public_input_file private_input_file) ∧
    (layout ∈ LAYOUTS →
      "--cairo_layout_params_file" ∉ build_cairo_run_command layout compiled_output
        trace_file memory_file public_input_file private_input_file) := by
  have hbase : "--cairo_layout_params_file" ∉ ["cairo-run",
      "--program", compiled_output,
      "--layout", layout,
      "--proof_mode",
      "--program_input", PROGRAM_INPUT_FILE,
      "--trace_file", trace_file,
      "--memory_file", memory_file,
      "--air_private_input", private_input_file,
      "--air_public_input", public_input_file,
      "--print_info",
      "--print_output"] := by
    intro hmem
    simp only [PROGRAM_INPUT_FILE, List.mem_cons, List.not_mem_nil, or_false] at hmem
    rcases hmem with h|h|h|h|h|h|h|h|h|h|h|h|h|h|h|h|h|h
    · exact absurd h (by decide)
    · exact absurd h (by decide)
    · exact h1 h.symm
    · exact absurd h (by decide)
    · exact h0 h.symm
    · exact absurd h (by decide)
    · exact absurd h (by decide)
    · exact absurd h (by decide)
    · exact absurd h (by decide)
    · exact h2 h.symm
    · exact absurd h (by decide)
    · exact h3 h.symm
    · exact absurd h (by decide)
    · exact h5 h.symm
    · exact absurd h (by decide)
    · exact h4 h.symm
    · exact absurd h (by decide)
    · exact absurd h (by decide)
  refine ⟨⟨fun hmem => ?_, fun hdyn => ?_⟩, fun hdyn => ?_, fun hin => ?_⟩
  · by_cases hdyn : layout = "dynamic"
    · exact hdyn
    · rw [build_cairo_run_command, if_neg hdyn] at hmem
      exact absurd hmem hbase
  · rw [build_cairo_run_command, if_pos hdyn]
    simp
  · subst hdyn
    rw [build_cairo_run_command, if_pos rfl,
      show os_path_join "dynamic" "cairo_layout_params.json" =
        "dynamic/cairo_layout_params.json" by decide]
    exact List.suffix_append _ _
  · have hdyn : layout ≠ "dynamic" := by
      simp only [LAYOUTS, List.mem_cons, List.not_mem_nil, or_false] at hin
      rcases hin with rfl|rfl|rfl|rfl|rfl|rfl <;> decide
    rw [build_cairo_run_command, if_neg hdyn]
    exact hbase

theorem build_cairo_run_command_dynamic_flag_witness :
    ("--cairo_layout_params_file" ∈
        build_cairo_run_command "recursive" "a" "b" "c" "d" "e" ↔
      "recursive" = "dynamic") ∧
    ("recursive" = "dynamic" →
      ["--cairo_layout_params_file", "dynamic/cairo_layout_params.json"] <:+
        build_cairo_run_command "recursive" "a" "b" "c" "d" "e") ∧
    ("recursive" ∈ LAYOUTS →
      "--cairo_layout_params_file" ∉
        build_cairo_run_command "recursive" "a" "b" "c" "d" "e") :=
  build_cairo_run_command_dynamic_flag "recursive" "a" "b" "c" "d" "e" (by decide)
    (by decide) (by decide) (by decide) (by decide) (by decide)

/-- Reading back the key just written by `setKey` gives the new value. -/
theorem getKey_setKey_self (fs : List (String × Json)) (k : String) (v : Json) :
    getKey (setKey fs k v) k = some v := by
  induction fs with
  | nil => simp [setKey, getKey]
  | cons p fs ih =>
    obtain ⟨k0, v0⟩ := p
    by_cases h0 : k0 = k
    · simp [setKey, getKey, h0]
    · simp [setKey, getKey, h0, ih]

/-- `setKey` leaves every other key's value unchanged. -/
theorem getKey_setKey_ne (fs : List (String × Json)) (k k' : String) (v : Json)
    (h : k ≠ k') : getKey (setKey fs k v) k' = getKey fs k' := by
  induction fs with
  | nil => simp [setKey, getKey, h]
  | cons p fs ih =>
    obtain ⟨k0, v0⟩ := p
    by_cases h0 : k0 = k
    · subst h0
      simp [setKey, getKey, h]
    · simp [setKey, getKey, h0, ih]

/-- C5 (amended): for a baseline whose `stark.fri.last_layer_degree_bound` is
`4` — the bound of the spec's first concrete case — and a public input
reporting `n_steps = 1024`, the patched configuration differs from the
baseline only in the `stark.fri.fri_step_list` field, whose new value is
`[0, 4, 4, 4]`: at each level of the path every other key is unchanged. For
an arbitrary baseline the claim as stated is false, because the new value
depends on the baseline's own `last_layer_degree_bound`; see
`update_parameter_value_cex`. -/
theorem update_parameter_frame (top starkFields friFields : List (String × Json))
    (hstark : getKey top "stark" = some (Json.obj starkFields))
    (hfri : getKey starkFields "fri" = some (Json.obj friFields))
    (hbound : getKey friFields "last_layer_degree_bound" = some (Json.num 4)) :
    ∃ top' starkFields' friFields' : List (String × Json),
      updated_config (Json.obj top) 1024 = some (Json.obj top') ∧
      getKey top' "stark" = some (Json.obj starkFields') ∧
      getKey starkFields' "fri" = some (Json.obj friFields') ∧
      (∀ k, k ≠ "stark" → getKey top' k = getKey top k) ∧
      (∀ k, k ≠ "fri" → getKey starkFields' k = getKey starkFields k) ∧
      (∀ k, k ≠ "fri_step_list" → getKey friFields' k = getKey friFields k) ∧
      getKey friFields' "fri_step_list" =
        some (Json.arr (([0, 4, 4, 4] : List ℤ).map Json.num)) := by
  have hb : last_layer_degree_bound (Json.obj top) = some 4 := by
    simp [last_layer_degree_bound, Json.get, hstark, hfri, hbound]
  have hc : compute_fri_step_list 1024 (Json.obj top) = some [0, 4, 4, 4] := by
    rw [compute_fri_step_list_eq 1024 4 _ (by norm_num) hb (by norm_num)]
    decide
  refine ⟨setKey top "stark" (Json.obj (setKey starkFields "fri" (Json.obj
      (setKey friFields "fri_step_list"
        (Json.arr (([0, 4, 4, 4] : List ℤ).map Json.num)))))),
    setKey starkFields "fri" (Json.obj (setKey friFields "fri_step_list"
      (Json.arr (([0, 4, 4, 4] : List ℤ).map Json.num)))),
    setKey friFields "fri_step_list" (Json.arr (([0, 4, 4, 4] : List ℤ).map Json.num)),
    ?_, getKey_setKey_self _ _ _, getKey_setKey_self _ _ _,
    fun k hk => getKey_setKey_ne _ _ _ _ (Ne.symm hk),
    fun k hk => getKey_setKey_ne _ _ _ _ (Ne.symm hk),
    fun k hk => getKey_setKey_ne _ _ _ _ (Ne.symm hk),
    getKey_setKey_self _ _ _⟩
  simp [updated_config, hc, hstark, hfri, asObj]

theorem update_parameter_frame_witness :
    ∃ top' starkFields' friFields' : List (String × Json),
      updated_config (Json.obj topFields4) 1024 = some (Json.obj top') ∧
      getKey top' "stark" = some (Json.obj starkFields') ∧
      getKey starkFields' "fri" = some (Json.obj friFields') ∧
      (∀ k, k ≠ "stark" → getKey top' k = getKey topFields4 k) ∧
      (∀ k, k ≠ "fri" → getKey starkFields' k = getKey starkFields4 k) ∧
      (∀ k, k ≠ "fri_step_list" → getKey friFields' k = getKey friFields4 k) ∧
      getKey friFields' "fri_step_list" =
        some (Json.arr (([0, 4, 4, 4] : List ℤ).map Json.num)) :=
  update_parameter_frame topFields4 starkFields4 friFields4 rfl rfl rfl

/-- C5 counterexample: on the well-formed baseline whose
`last_layer_degree_bound` is `2` and for `n_steps = 1024`, the patcher
succeeds but writes `fri_step_list = [0, 4, 4, 4, 1]`, not `[0, 4, 4, 4]`:
the claim's universally quantified value `[0, 4, 4, 4]` is wrong for this
baseline document. -/
theorem update_parameter_value_cex :
    (updated_config (sampleConfig 2 [7]) 1024).bind fri_step_list_entries =
      some [0, 4, 4, 4, 1] ∧
    some ([0, 4, 4, 4, 1] : List ℤ) ≠ some ([0, 4, 4, 4] : List ℤ) := by
  constructor
  · decide
  · decide

/-- A document is an object exactly when `asObj` extracts its fields. -/
theorem asObj_eq_some (c : Json) (fields : List (String × Json)) :
    asObj c = some fields ↔ c = Json.obj fields := by
  cases c <;> simp [asObj]

/-- An optional document composed with `asObj` yields fields exactly when it
is an object with those fields. -/
theorem bind_asObj_eq_some (o : Option Json) (fields : List (String × Json)) :
    o.bind asObj = some fields ↔ o = some (Json.obj fields) := by
  cases o with
  | none => simp
  | some c => simp [asObj_eq_some]

/-- Writing the same value at the same key twice is the same as writing it
once. -/
theorem setKey_setKey (fs : List (String × Json)) (k : String) (v : Json) :
    setKey (setKey fs k v) k v = setKey fs k v := by
  induction fs with
  | nil => simp [setKey]
  | cons p fs ih =>
    obtain ⟨k0, v0⟩ := p
    by_cases h0 : k0 = k
    · simp [setKey, h0]
    · simp [setKey, h0, ih]

/-- `compute_fri_step_list` reads the configuration only through its
`last_layer_degree_bound`. -/
theorem compute_fri_step_list_congr (n : ℤ) (c c' : Json)
    (h : last_layer_degree_bound c = last_layer_degree_bound c') :
    compute_fri_step_list n c = compute_fri_step_list n c' := by
  simp only [compute_fri_step_list, h]

/-- Inversion for a successful patch: the document is a well-formed object
down the `stark.fri` path and the patched document is the triple `setKey`. -/
theorem updated_config_shape (config : Json) (n : ℤ) (config' : Json)
    (h : updated_config config n = some config') :
    ∃ (steps : List ℤ) (top starkFields friFields : List (String × Json)),
      compute_fri_step_list n config = some steps ∧
      config = Json.obj top ∧
      getKey top "stark" = some (Json.obj starkFields) ∧
      getKey starkFields "fri" = some (Json.obj friFields) ∧
      config' = Json.obj (setKey top "stark" (Json.obj (setKey starkFields "fri"
        (Json.obj (setKey friFields "fri_step_list"
          (Json.arr (steps.map Json.num))))))) := by
  unfold updated_config at h
  cases hsteps : compute_fri_step_list n config with
  | none => rw [hsteps] at h; simp at h
  | some steps =>
    rw [hsteps] at h
    simp only [Option.some_bind] at h
    cases hobj : asObj config with
    | none => rw [hobj] at h; simp at h
    | some top =>
      rw [hobj] at h
      simp only [Option.some_bind] at h
      cases hstark : (getKey top "stark").bind asObj with
      | none => rw [hstark] at h; simp at h
      | some starkFields =>
        rw [hstark] at h
        simp only [Option.some_bind] at h
        cases hfri : (getKey starkFields "fri").bind asObj with
        | none => rw [hfri] at h; simp at h
        | some friFields =>
          rw [hfri] at h
          simp only [Option.some_bind, Option.some.injEq] at h
          exact ⟨steps, top, starkFields, friFields, rfl,
            (asObj_eq_some _ _).mp hobj,
            (bind_asObj_eq_some _ _).mp hstark,
            (bind_asObj_eq_some _ _).mp hfri, h.symm⟩

/-- Patching an already patched document writes the same `fri_step_list`
again and changes nothing: the patch preserves the `last_layer_degree_bound`
it reads. -/
theorem updated_config_idem (config config' : Json) (n : ℤ)
    (h : updated_config config n = some config') :
    updated_config config' n = some config' := by
  obtain ⟨steps, top, starkFields, friFields, hsteps, hcfg, hstark, hfri, hcfg'⟩ :=
    updated_config_shape config n config' h
  subst hcfg
  subst hcfg'
  have hb' : last_layer_degree_bound (Json.obj (setKey top "stark"
        (Json.obj (setKey starkFields "fri" (Json.obj (setKey friFields "fri_step_list"
          (Json.arr (steps.map Json.num)))))))) =
      last_layer_degree_bound (Json.obj top) := by
    simp only [last_layer_degree_bound, Json.get, hstark, hfri, getKey_setKey_self,
      Option.some_bind,
      getKey_setKey_ne friFields "fri_step_list" "last_layer_degree_bound" _
        (by decide)]
  have hsteps' : compute_fri_step_list n (Json.obj (setKey top "stark"
        (Json.obj (setKey starkFields "fri" (Json.obj (setKey friFields "fri_step_list"
          (Json.arr (steps.map Json.num)))))))) = some steps := by
    rw [compute_fri_step_list_congr n _ _ hb', hsteps]
  simp only [updated_config, hsteps', Option.some_bind, asObj, getKey_setKey_self,
    setKey_setKey]

/-- C6: the patcher is a pure function of the baseline document and
`n_steps`: running it again — after a first run, on the file store the first
run produced, with the same paths and the same `n_steps` — succeeds and
writes the identical patched document to the identical path. This holds even
if the written path aliases the read path, because the patch preserves the
`last_layer_degree_bound` it reads. -/
theorem update_parameter_file_deterministic (fs : FileStore) (p tmpdir : String)
    (n : ℤ) (fs1 : FileStore) (u : String)
    (h1 : update_parameter_file fs p tmpdir n = some (fs1, u)) :
    ∃ fs2 : FileStore, update_parameter_file fs1 p tmpdir n = some (fs2, u) ∧
      fs2 u = fs1 u := by
  unfold update_parameter_file at h1 ⊢
  cases hc : fs p with
  | none => rw [hc] at h1; simp at h1
  | some config =>
    rw [hc] at h1
    simp only [Option.some_bind] at h1
    cases hu : updated_config config n with
    | none => simp [hu] at h1
    | some config' =>
      rw [hu] at h1
      simp only [Option.map_some', Option.some.injEq, Prod.mk.injEq] at h1
      obtain ⟨hfs1, huu⟩ := h1
      subst huu
      by_cases hp : p = os_path_join tmpdir "updated_cpu_air_params.json"
      · have hfsp : fs1 p = some config' := by
          rw [← hfs1]
          exact if_pos hp
        rw [hfsp]
        simp only [Option.some_bind, updated_config_idem config config' n hu,
          Option.map_some']
        refine ⟨_, rfl, ?_⟩
        simp only [← hfs1]
        simp
      · have hfsp : fs1 p = fs p := by
          rw [← hfs1]
          exact if_neg hp
        rw [hfsp, hc]
        simp only [Option.some_bind, hu, Option.map_some']
        refine ⟨_, rfl, ?_⟩
        simp only [← hfs1]
        simp

theorem update_parameter_file_deterministic_witness :
    ∃ fs2 : FileStore,
      update_parameter_file witnessStore1 "cpu_air_params.json" "tmp" 1024 =
        some (fs2, "tmp/updated_cpu_air_params.json") ∧
      fs2 "tmp/updated_cpu_air_params.json" =
        witnessStore1 "tmp/updated_cpu_air_params.json" :=
  update_parameter_file_deterministic witnessStore "cpu_air_params.json" "tmp" 1024
    witnessStore1 "tmp/updated_cpu_air_params.json" rfl

example : clog2 1024 = 10 := by decide
example : clog2 100 = 7 := by decide
example : clog2 16 = 4 := by decide
example : clog2 1 = 0 := by decide
example : compute_fri_step_list 1024 (sampleConfig 4 []) = some [0, 4, 4, 4] := by decide
example : compute_fri_step_list 100 (sampleConfig 2 []) = some [0, 4, 4, 2] := by decide
example : compute_fri_step_list 16 (sampleConfig 64 []) = some [0, 2] := by decide
example : compute_fri_step_list 2 (sampleConfig 64 []) = some [0, 3] := by decide
example : compute_fri_step_list 0 (sampleConfig 4 []) = none := by decide
